import Mathlib

/-!
Verification of the London bus-time-checker map engine against its
natural-language specification.

The numeric code of the repository runs on IEEE doubles; we embed it in
exact real arithmetic (`ℝ`), the idealised semantics the specification's
"within floating-point epsilon" clauses refer to.  Integer and list logic
(tile grids, API route handlers, poll bookkeeping) is embedded computably
over `ℤ`, `ℚ`, `String` and `List`.

Source files referenced below:
* `src/unnamed/part_000`           — the `BusMap` component (exact inverse-projection drag commit)
* `src/components/live-bus-map.tsx` — the `LiveBusMap` component (approximate drag commit, tiles, culling, polling)
* `src/app/api/tfl/search/route.ts` — the stop-search route
* `src/app/api/tfl/buslocation/route.ts` — the bus-location route
-/

namespace BusTime

/-- A geographic coordinate, the `{lat, lng}` objects of the source. -/
structure GeoPoint where
  lat : ℝ
  lng : ℝ

/-- A point in pixel space, the `{x, y}` objects of the source. -/
structure ScreenPoint where
  x : ℝ
  y : ℝ

/-! ## Projection math of the `BusMap` variant (`src/unnamed/part_000`)

`latLngToPixel` / `pixelToLatLng` are the Web-Mercator forward and inverse
transforms of `BusMap`; their world width is the viewport width `mapWidth`. -/

/-- Function `latLngToPixel` of `src/unnamed/part_000` (`BusMap`):
longitude maps linearly, latitude by the Mercator log-tangent formula. -/
noncomputable def latLngToPixel (lat lng mapWidth mapHeight : ℝ) : ScreenPoint :=
  let x := (lng + 180) / 360 * mapWidth
  let latRad := lat * Real.pi / 180
  let mercN := Real.log (Real.tan (Real.pi / 4 + latRad / 2))
  let y := mapHeight / 2 - mapWidth * mercN / (2 * Real.pi)
  ⟨x, y⟩

/-- Function `pixelToLatLng` of `src/unnamed/part_000` (`BusMap`):
inverse Mercator via arctangent/exponential. -/
noncomputable def pixelToLatLng (x y mapWidth mapHeight : ℝ) : GeoPoint :=
  let lng := x / mapWidth * 360 - 180
  let mercN := (mapHeight / 2 - y) * 2 * Real.pi / mapWidth
  let lat := (Real.arctan (Real.exp mercN) - Real.pi / 4) * 2 * (180 / Real.pi)
  ⟨lat, lng⟩

/-! ## Drag state machine of `BusMap` (`src/unnamed/part_000`) -/

/-- The `useState` cells of `BusMap` that the drag gesture touches. -/
structure BusMapState where
  zoom : ℤ
  center : GeoPoint
  isDragging : Bool
  dragStart : ScreenPoint
  dragOffset : ScreenPoint

/-- Handler `handleMouseDown` of `BusMap`: records the gesture start position. -/
noncomputable def busMapHandleMouseDown (s : BusMapState) (clientX clientY : ℝ) : BusMapState :=
  { s with isDragging := true, dragStart := ⟨clientX, clientY⟩ }

/-- Handler `handleMouseMove` of `BusMap`: while dragging, `dragOffset` is the
current pointer minus the gesture start. -/
noncomputable def busMapHandleMouseMove (s : BusMapState) (clientX clientY : ℝ) : BusMapState :=
  if s.isDragging then
    { s with dragOffset := ⟨clientX - s.dragStart.x, clientY - s.dragStart.y⟩ }
  else s

/-- Handler `handleMouseUp` of `BusMap` (`src/unnamed/part_000`, the commit step):
subtracts `dragOffset` from the projected centre pixel, unprojects the
result into the new centre, and resets `dragOffset` to `{0, 0}`.
(The `mapRef.current` null guard is assumed satisfied: the map is mounted.) -/
noncomputable def busMapHandleMouseUp (s : BusMapState) (w h : ℝ) : BusMapState :=
  if s.isDragging then
    let centerPixel := latLngToPixel s.center.lat s.center.lng w h
    let newCenter := pixelToLatLng (centerPixel.x - s.dragOffset.x) (centerPixel.y - s.dragOffset.y) w h
    { s with isDragging := false, center := newCenter, dragOffset := ⟨0, 0⟩ }
  else s

/-- Marker screen placement of `BusMap`: pixel delta from the centre,
re-centred on the viewport, plus the live `dragOffset`. -/
noncomputable def busMapScreenPos (p : GeoPoint) (s : BusMapState) (w h : ℝ) : ScreenPoint :=
  let pixel := latLngToPixel p.lat p.lng w h
  let centerPixel := latLngToPixel s.center.lat s.center.lng w h
  ⟨pixel.x - centerPixel.x + w / 2 + s.dragOffset.x,
   pixel.y - centerPixel.y + h / 2 + s.dragOffset.y⟩

/-! ## The `LiveBusMap` variant (`src/components/live-bus-map.tsx`)

Entity records carry exactly the fields the map logic reads. -/

/-- The `BusStop` record of `live-bus-map.tsx` (fields the map logic reads). -/
structure BusStop where
  id : String
  commonName : String
  lat : ℝ
  lon : ℝ
  distance : Option ℝ
  indicator : Option String

/-- The `UserLocation` record of `live-bus-map.tsx`. -/
structure UserLocation where
  lat : ℝ
  lng : ℝ

/-- The `useState` cells of `LiveBusMap` driving the viewport. -/
structure LiveMapState where
  zoom : ℤ
  center : GeoPoint
  isDragging : Bool
  dragStart : ScreenPoint
  dragOffset : ScreenPoint

/-- The initial `useState` values of `LiveBusMap`: zoom 13, London centre. -/
noncomputable def liveInitialState : LiveMapState :=
  ⟨13, ⟨51.5074, -0.1278⟩, false, ⟨0, 0⟩, ⟨0, 0⟩⟩

/-- JavaScript's truncation toward zero, as used by the `%` operator. -/
noncomputable def jsTrunc (y : ℝ) : ℤ :=
  if 0 ≤ y then ⌊y⌋ else ⌈y⌉

/-- JavaScript's remainder operator `x % n` on numbers:
`x - n * trunc(x / n)` (the result takes the sign of the dividend). -/
noncomputable def jsMod (x n : ℝ) : ℝ :=
  x - n * jsTrunc (x / n)

/-- Function `latLngToPixel` of `live-bus-map.tsx`: world size `256 * 2^zoom`,
re-centred on the viewport, with the live `dragOffset` added. -/
noncomputable def liveLatLngToPixel (lat lng : ℝ) (s : LiveMapState) (mapWidth mapHeight : ℝ) :
    ScreenPoint :=
  let worldWidth := 256 * (2 : ℝ) ^ s.zoom
  let worldHeight := 256 * (2 : ℝ) ^ s.zoom
  let x := (lng + 180) / 360 * worldWidth
  let latRad := lat * Real.pi / 180
  let mercN := Real.log (Real.tan (Real.pi / 4 + latRad / 2))
  let y := worldHeight / 2 - worldWidth * mercN / (2 * Real.pi)
  let centerX := (s.center.lng + 180) / 360 * worldWidth
  let centerLatRad := s.center.lat * Real.pi / 180
  let centerMercN := Real.log (Real.tan (Real.pi / 4 + centerLatRad / 2))
  let centerY := worldHeight / 2 - worldWidth * centerMercN / (2 * Real.pi)
  ⟨x - centerX + mapWidth / 2 + s.dragOffset.x,
   y - centerY + mapHeight / 2 + s.dragOffset.y⟩

/-- Handler `handleMouseUp` of `live-bus-map.tsx`: the drag commit.  The longitude
delta is the exact inverse of the linear longitude projection; the latitude
delta is a cosine-scaled linearisation.  Latitude is clamped to `[-85, 85]`;
longitude is passed through `((… + 180) % 360) - 180` with the JavaScript
remainder.  `dragOffset` is reset to `{0, 0}`. -/
noncomputable def liveHandleMouseUp (s : LiveMapState) : LiveMapState :=
  if s.isDragging then
    let worldWidth := 256 * (2 : ℝ) ^ s.zoom
    let deltaLng := -s.dragOffset.x / worldWidth * 360
    let deltaLat := s.dragOffset.y / worldWidth * 360 * Real.cos (s.center.lat * Real.pi / 180)
    { s with
      isDragging := false,
      center := ⟨max (-85) (min 85 (s.center.lat + deltaLat)),
                 jsMod (s.center.lng + deltaLng + 180) 360 - 180⟩,
      dragOffset := ⟨0, 0⟩ }
  else s

/-- JavaScript `Math.max(x, ...xs)` over a spread list, as a left fold. -/
noncomputable def spreadMax (x : ℝ) (xs : List ℝ) : ℝ := xs.foldl max x

/-- JavaScript `Math.min(x, ...xs)` over a spread list, as a left fold. -/
noncomputable def spreadMin (x : ℝ) (xs : List ℝ) : ℝ := xs.foldl min x

/-- The auto-centre `useEffect` of `live-bus-map.tsx`: selected stop first,
else user location, else the bounding-box midpoint of the stop list, else
leave the centre untouched; `dragOffset` is reset in every case. -/
noncomputable def liveAutoCenter (selectedStop : Option BusStop) (userLocation : Option UserLocation)
    (busStops : List BusStop) (s : LiveMapState) : LiveMapState :=
  match selectedStop with
  | some st => { s with center := ⟨st.lat, st.lon⟩, zoom := 16, dragOffset := ⟨0, 0⟩ }
  | none =>
    match userLocation with
    | some u => { s with center := ⟨u.lat, u.lng⟩, zoom := 15, dragOffset := ⟨0, 0⟩ }
    | none =>
      match busStops with
      | [] => { s with dragOffset := ⟨0, 0⟩ }
      | st :: rest =>
        let centerLat := (spreadMax st.lat (rest.map (·.lat)) + spreadMin st.lat (rest.map (·.lat))) / 2
        let centerLng := (spreadMax st.lon (rest.map (·.lon)) + spreadMin st.lon (rest.map (·.lon))) / 2
        { s with center := ⟨centerLat, centerLng⟩, zoom := 14, dragOffset := ⟨0, 0⟩ }

/-- The viewport-state update operations of `LiveBusMap`. -/
inductive MapOp where
  | zoomInOp
  | zoomOutOp
  | resetViewOp
  | mouseUpOp
  | centerOnUserOp (u : UserLocation)
  | centerOnStopOp (st : BusStop)
  | autoCenterOp (selectedStop : Option BusStop) (userLocation : Option UserLocation)
      (busStops : List BusStop)

/-- Dispatch of the `LiveBusMap` state updates:
`zoomIn`/`zoomOut` step zoom by ±1 clamped to `[3, 18]`, `resetView`
restores the London default, `handleMouseUp` commits a drag,
`centerOnUser`/`centerOnSelectedStop` recentre at zoom 15/16, and the
auto-centre effect applies the fallback priority. -/
noncomputable def applyOp (op : MapOp) (s : LiveMapState) : LiveMapState :=
  match op with
  | .zoomInOp => { s with zoom := min (s.zoom + 1) 18 }
  | .zoomOutOp => { s with zoom := max (s.zoom - 1) 3 }
  | .resetViewOp => { s with center := ⟨51.5074, -0.1278⟩, zoom := 13, dragOffset := ⟨0, 0⟩ }
  | .mouseUpOp => liveHandleMouseUp s
  | .centerOnUserOp u => { s with center := ⟨u.lat, u.lng⟩, zoom := 15, dragOffset := ⟨0, 0⟩ }
  | .centerOnStopOp st => { s with center := ⟨st.lat, st.lon⟩, zoom := 16, dragOffset := ⟨0, 0⟩ }
  | .autoCenterOp sel u stops => liveAutoCenter sel u stops s

/-! ## Marker culling (`live-bus-map.tsx`, user/stop/bus marker guards)

Each marker render bails out (`return null`) when the computed pixel falls
outside the viewport expanded by 50px on every side:
`pixel.x < -50 || pixel.x > rect.width + 50 || pixel.y < -50 || pixel.y > rect.height + 50`. -/

/-- The cull guard of the marker renderers in `live-bus-map.tsx`. -/
def markerCulled (p : ScreenPoint) (w h : ℝ) : Prop :=
  p.x < -50 ∨ p.x > w + 50 ∨ p.y < -50 ∨ p.y > h + 50

/-- A stop marker is culled exactly when the cull guard fires on its
`latLngToPixel` position. -/
noncomputable def stopMarkerCulled (stop : BusStop) (s : LiveMapState) (w h : ℝ) : Prop :=
  markerCulled (liveLatLngToPixel stop.lat stop.lon s w h) w h

/-! ## Tile enumeration (`renderTiles` of `live-bus-map.tsx` /
`interactive-map.tsx`)

`tilesX = ceil(width/256) + 2`, and the loops run
`dx, dy ∈ [-floor(tilesX/2), floor(tilesX/2)]` around the centre tile;
tiles outside `[0, 2^zoom)` in either axis are skipped. -/

/-- The candidate tile grid enumerated by `renderTiles` before the
edge-of-world bounds check.  The loop bounds come from
`tilesX = Math.ceil(rect.width / 256) + 2` and
`dx ∈ [-Math.floor(tilesX / 2), Math.floor(tilesX / 2)]` (likewise `y`). -/
def tileCandidates (centerTileX centerTileY : ℤ) (w h : ℚ) : List (ℤ × ℤ) :=
  let tilesX : ℤ := ⌈w / 256⌉ + 2
  let tilesY : ℤ := ⌈h / 256⌉ + 2
  let halfX := tilesX / 2
  let halfY := tilesY / 2
  (List.range (2 * halfX + 1).toNat).flatMap fun (i : ℕ) =>
    (List.range (2 * halfY + 1).toNat).map fun (j : ℕ) =>
      (centerTileX + (i : ℤ) - halfX, centerTileY + (j : ℤ) - halfY)

/-- Function `renderTiles` after the bounds check: candidates with either coordinate
outside `[0, 2^zoom)` are skipped. -/
def renderTilesKept (zoom : ℕ) (centerTileX centerTileY : ℤ) (w h : ℚ) : List (ℤ × ℤ) :=
  (tileCandidates centerTileX centerTileY w h).filter fun t =>
    decide (0 ≤ t.1) && decide (0 ≤ t.2) && decide (t.1 < 2 ^ zoom) && decide (t.2 < 2 ^ zoom)

/-! ## Upstream fetch outcomes

`fetch` either yields a response (`ok`/`notOk` by HTTP status) or throws
(network error, or abort by the 5-second timeout).  `fetchJson` in
`search/route.ts` turns a non-OK response into a thrown error too. -/

/-- Outcome of one upstream `fetch` of a JSON value. -/
inductive Fetched (α : Type) where
  | ok (value : α)
  | notOk (status : ℕ)
  | thrown
deriving DecidableEq

/-- Function `fetchJson` of `search/route.ts`: a non-OK response throws. -/
def fetchJson {α : Type} : Fetched α → Except String α
  | .ok v => .ok v
  | .notOk s => .error ("TfL " ++ toString s)
  | .thrown => .error "fetch failed"

/-- Returns `true` when the fetch did not deliver a value (non-OK status, network
error, or abort by the timeout). -/
def Fetched.failed {α : Type} : Fetched α → Bool
  | .ok _ => false
  | .notOk _ => true
  | .thrown => true

/-! ## The stop-search route (`src/app/api/tfl/search/route.ts`) -/

/-- One entry of a TfL `lines` array (`{ id, name }`). -/
structure StopLine where
  id : String
  name : String

/-- One entry of a TfL `additionalProperties` array (`{ key, value }`). -/
structure StopProp where
  key : String
  value : String

/-- The fields of a TfL `StopPoint` that the search route reads
(`lat`/`lon` are optional in the upstream schema). -/
structure StopPointBase where
  id : String
  naptanId : Option String
  commonName : String
  lat : Option ℚ
  lon : Option ℚ
  distance : Option ℚ
  modes : List String
  indicator : Option String
  lines : List StopLine
  additionalProperties : List StopProp

/-- A `StopPoint` together with its (one level of) `children`, as read by
the group-expansion step. -/
structure StopPoint extends StopPointBase where
  children : List StopPointBase

/-- JavaScript's `String.prototype.trim()`: strip leading and trailing
whitespace. -/
def jsTrim (s : String) : String :=
  String.mk (((s.toList.dropWhile Char.isWhitespace).reverse.dropWhile
    Char.isWhitespace).reverse)

/-- JavaScript `a || b` on an optional string (empty string is falsy). -/
def jsOrStr (a : Option String) (b : String) : String :=
  match a with
  | some s => if s = "" then b else s
  | none => b

/-- The character-level effect of `raw.replace(/^Stop\s+/i, "")`: strip a
case-insensitive leading `Stop` followed by one or more whitespace
characters. -/
def stripStopLabel : List Char → List Char
  | a :: b :: c :: d :: e :: rest =>
    if a.toLower = 's' ∧ b.toLower = 't' ∧ c.toLower = 'o' ∧ d.toLower = 'p' ∧ e.isWhitespace then
      rest.dropWhile Char.isWhitespace
    else a :: b :: c :: d :: e :: rest
  | l => l

/-- Function `extractIndicator` of `search/route.ts`:
`raw.replace(/^Stop\s+/i, "").trim() || null` (with `null`/empty in, `null` out). -/
def extractIndicator (raw : Option String) : Option String :=
  match raw with
  | none => none
  | some r =>
    let t := jsTrim (String.mk (stripStopLabel r.toList))
    if t = "" then none else some t

/-- Function `extractTowards` of `search/route.ts`: value of the `Towards`
additional property, if present. -/
def extractTowards (stop : StopPointBase) : Option String :=
  ((stop.additionalProperties.find? fun p => p.key = "Towards").map fun p => p.value)

/-- The transformed search result shape produced by `toResult`. -/
structure SearchResult where
  id : String
  commonName : String
  lat : Option ℚ
  lon : Option ℚ
  distance : Option ℚ
  indicator : Option String
  towards : Option String
  lines : List String
  parentGroupId : Option String

/-- Function `toResult` of `search/route.ts`: `lat`/`lon` are forwarded as-is. -/
def toResult (stop : StopPointBase) (parentGroupId : Option String) : SearchResult :=
  { id := jsOrStr stop.naptanId stop.id
    commonName := stop.commonName
    lat := stop.lat
    lon := stop.lon
    distance := stop.distance
    indicator := extractIndicator stop.indicator
    towards := extractTowards stop
    lines := (stop.lines.map fun l => l.name).take 4
    parentGroupId := parentGroupId }

/-- Function `isGroupId` of `search/route.ts`: 4th character (uppercased) is `G`. -/
def isGroupId (id : String) : Bool :=
  decide (4 ≤ id.length) && ((id.toList.getD 3 ' ').toUpper == 'G')

/-- The hard timeout (ms) armed around the upstream fetches of the search
route: `setTimeout(() => ac.abort(), 5000)`. -/
def searchTimeoutMs : ℕ := 5000

/-- The upstream behaviour the search route interacts with: the text
search, the bulk details lookup (keyed by the joined id list), and the
per-group expansion fetch. -/
structure SearchUpstream where
  search : Fetched (List StopPointBase)
  details : String → Fetched (List StopPoint)
  group : String → Fetched StopPoint

/-- The response of the search route: HTTP 400 for a missing query, else
HTTP 200 carrying `matches` (plus `stale`/`error` fields when present). -/
inductive SearchResponse where
  | badRequest
  | results (matchList : List SearchResult) (stale : Option Bool) (error : Option String)

/-- HTTP status of a `SearchResponse`. -/
def SearchResponse.status : SearchResponse → ℕ
  | .badRequest => 400
  | .results _ _ _ => 200

/-- The comma-joined id key of the bulk details fetch
(`topMatches.map(m => m.id).join(",")`). -/
def searchIdsKey (found : List StopPointBase) : String :=
  String.intercalate "," ((found.take 5).map fun m => m.id)

/-- The `GET` handler of `search/route.ts`.  Search and details failures
fall into the catch branch, which answers HTTP 200 with empty matches and
`stale: true`; a failing group expansion is skipped silently. -/
def searchGET (query : Option String) (u : SearchUpstream) : SearchResponse :=
  match query.map jsTrim with
  | none => .badRequest
  | some q =>
    if q = "" then .badRequest
    else
      match fetchJson u.search with
      | .error _ => .results [] (some true) (some "Failed to search bus stops")
      | .ok searchMatches =>
        if searchMatches.isEmpty then .results [] none none
        else
          match fetchJson (u.details (searchIdsKey searchMatches)) with
          | .error _ => .results [] (some true) (some "Failed to search bus stops")
          | .ok stopPoints =>
            let expanded := stopPoints.flatMap fun sp =>
              if isGroupId sp.id then
                match fetchJson (u.group sp.id) with
                | .ok g =>
                  ((g.children.filter fun c => c.modes.contains "bus").map
                    fun c => { c with distance := sp.distance })
                | .error _ => []
              else [sp.toStopPointBase]
            .results (expanded.map fun sp => toResult sp none) (some false) none

/-! ## The bus-location route (`src/app/api/tfl/buslocation/route.ts`) -/

/-- One arrival record of `/StopPoint/{id}/Arrivals` (only `vehicleId` is
read by the route). -/
structure TflArrival where
  vehicleId : Option String
deriving DecidableEq

/-- One record of `/Vehicle/{id}/Arrivals` — the fields the route copies.
`lat`/`lon` may be absent upstream. -/
structure TflVehicleArrival where
  lineName : Option String
  vehicleId : Option String
  lat : Option ℚ
  lon : Option ℚ
  destinationName : Option String
deriving DecidableEq

/-- A bus entry of the route's response. -/
structure TrackedBus where
  id : String
  lineName : Option String
  vehicleId : Option String
  lat : Option ℚ
  lon : Option ℚ
  destination : Option String
deriving DecidableEq

/-- The expression `arrivalsData.filter(a => a.vehicleId).map(a => a.vehicleId)`:
keep the truthy (present, non-empty) vehicle ids. -/
def extractVehicleIds (arrivals : List TflArrival) : List String :=
  arrivals.filterMap fun a =>
    match a.vehicleId with
    | some v => if v = "" then none else some v
    | none => none

/-- Helper for `jsSetDedup`: drop elements already seen. -/
def dedupFirstAux (seen : List String) : List String → List String
  | [] => []
  | x :: xs => if x ∈ seen then dedupFirstAux seen xs else x :: dedupFirstAux (x :: seen) xs

/-- JavaScript `[...new Set(l)]`: deduplication keeping first occurrences in order. -/
def jsSetDedup (l : List String) : List String := dedupFirstAux [] l

/-- The response of the bus-location route: 400 for a missing stop id,
500 when the arrivals fetch fails, else 200 with the bus list. -/
inductive BusLocationResponse where
  | badRequest
  | serverError
  | okBuses (buses : List TrackedBus)
deriving DecidableEq

/-- The `GET` handler of `buslocation/route.ts`.  Per-vehicle fetches that
fail or deliver no record become `null` and are removed by
`.filter(Boolean)`; a present first record is copied field-by-field with
no check that `lat`/`lon` exist. -/
def busLocationGET (stopId : Option String) (arrivalsFetch : Fetched (List TflArrival))
    (vehicleFetch : String → Fetched (List TflVehicleArrival)) : BusLocationResponse :=
  match stopId with
  | none => .badRequest
  | some sid =>
    if sid = "" then .badRequest
    else
      match arrivalsFetch with
      | .ok arrivalsData =>
        let vehicleIds := extractVehicleIds arrivalsData
        if vehicleIds.isEmpty then .okBuses []
        else
          let uniqueVehicleIds := jsSetDedup vehicleIds
          let busesToTrack := uniqueVehicleIds.take 5
          let busLocations := busesToTrack.filterMap fun vehicleId =>
            match vehicleFetch vehicleId with
            | .ok (busInfo :: _) =>
              some { id := vehicleId, lineName := busInfo.lineName,
                     vehicleId := busInfo.vehicleId, lat := busInfo.lat, lon := busInfo.lon,
                     destination := busInfo.destinationName }
            | .ok [] => none
            | .notOk _ => none
            | .thrown => none
          .okBuses busLocations
      | .notOk _ => .serverError
      | .thrown => .serverError

/-! ## The live-data poll effect (`live-bus-map.tsx` lines 238–253,
`leaflet-map.tsx` lines 158–173)

The `useEffect` keyed by the selected stop installs one
`setInterval(fetchBusLocations, 30000)` and its cleanup clears it; React
runs the previous cleanup before the next effect body.  We model the
component's timer/fetch bookkeeping as a step function over events
delivered by the browser event loop (selection changes, timer fires, fetch
resolutions).  `fetchBusLocations` carries no `AbortController`, so a
resolution event for an in-flight fetch is processed whenever it arrives. -/

/-- Events the poll bookkeeping reacts to. -/
inductive PollEvent where
  | select (stop : Option String)
  | timerFire (stop : String)
  | fetchResolve (stop : String)
deriving DecidableEq

/-- Observable actions of the poll bookkeeping. -/
inductive PollAction where
  | clearTimer (stop : String)
  | startFetch (stop : String)
  | startTimer (stop : String) (intervalMs : ℕ)
  | processResult (stop : String)
  | clearBuses
deriving DecidableEq

/-- Timer and in-flight-fetch bookkeeping of one component instance. -/
structure PollState where
  timers : List (String × ℕ)
  pending : List String
deriving DecidableEq

/-- One event step.  `select` runs the previous effect's cleanup
(`clearInterval`) and then the effect body (`fetchBusLocations()`, and
`setInterval(…, 30000)` when a stop is selected; with no stop selected
`fetchBusLocations` just clears the bus list).  A timer fire issues a
fetch for its stop; a fetch resolution is processed unconditionally. -/
def pollStep (s : PollState) (e : PollEvent) : PollState × List PollAction :=
  match e with
  | .select sel =>
    let cleanup := s.timers.map fun t => PollAction.clearTimer t.1
    match sel with
    | some b => (⟨[(b, 30000)], b :: s.pending⟩, cleanup ++ [.startFetch b, .startTimer b 30000])
    | none => (⟨[], s.pending⟩, cleanup ++ [.clearBuses])
  | .timerFire b =>
    if s.timers.any fun t => t.1 = b then (⟨s.timers, b :: s.pending⟩, [.startFetch b])
    else (s, [])
  | .fetchResolve b =>
    if s.pending.contains b then (⟨s.timers, s.pending.erase b⟩, [.processResult b])
    else (s, [])

/-- Run a list of events, accumulating the action trace. -/
def pollRun (s : PollState) : List PollEvent → PollState × List PollAction
  | [] => (s, [])
  | e :: es =>
    let step := pollStep s e
    let rest := pollRun step.1 es
    (rest.1, step.2 ++ rest.2)

/-! # Theorems -/

/-! ## Roundtrip lemmas for the `BusMap` projection pair -/

theorem tan_merc_arg_pos {lat : ℝ} (hlat : |lat| ≤ 85) :
    0 < Real.tan (Real.pi / 4 + lat * Real.pi / 180 / 2) := by
  have hpi := Real.pi_pos
  have h1 : -85 ≤ lat := (abs_le.mp hlat).1
  have h2 : lat ≤ 85 := (abs_le.mp hlat).2
  apply Real.tan_pos_of_pos_of_lt_pi_div_two
  · nlinarith
  · nlinarith

theorem pixelToLatLng_latLngToPixel (lat lng w h : ℝ) (hw : w ≠ 0) (hlat : |lat| ≤ 85) :
    pixelToLatLng (latLngToPixel lat lng w h).x (latLngToPixel lat lng w h).y w h
      = ⟨lat, lng⟩ := by
  have hpi := Real.pi_pos
  have hpi0 : Real.pi ≠ 0 := ne_of_gt hpi
  have htan := tan_merc_arg_pos hlat
  have h1 : -85 ≤ lat := (abs_le.mp hlat).1
  have h2 : lat ≤ 85 := (abs_le.mp hlat).2
  simp only [latLngToPixel, pixelToLatLng, GeoPoint.mk.injEq]
  constructor
  · have hm : (h / 2 - (h / 2 - w * Real.log (Real.tan (Real.pi / 4 + lat * Real.pi / 180 / 2))
        / (2 * Real.pi))) * 2 * Real.pi / w
        = Real.log (Real.tan (Real.pi / 4 + lat * Real.pi / 180 / 2)) := by
      field_simp
      ring
    rw [hm, Real.exp_log htan, Real.arctan_tan (by nlinarith) (by nlinarith)]
    field_simp
    ring
  · field_simp
    ring

theorem latLngToPixel_pixelToLatLng (x y w h : ℝ) (hw : w ≠ 0) :
    latLngToPixel (pixelToLatLng x y w h).lat (pixelToLatLng x y w h).lng w h
      = ⟨x, y⟩ := by
  have hpi0 : Real.pi ≠ 0 := ne_of_gt Real.pi_pos
  simp only [latLngToPixel, pixelToLatLng, ScreenPoint.mk.injEq]
  constructor
  · field_simp
    ring
  · have harg : Real.pi / 4
        + (Real.arctan (Real.exp ((h / 2 - y) * 2 * Real.pi / w)) - Real.pi / 4)
            * 2 * (180 / Real.pi) * Real.pi / 180 / 2
        = Real.arctan (Real.exp ((h / 2 - y) * 2 * Real.pi / w)) := by
      field_simp
      ring
    rw [harg, Real.tan_arctan, Real.log_exp]
    field_simp
    ring

/-! ## C3: projection roundtrip -/

/-- C3: for every `GeoPoint` with `|lat| ≤ 85` and every zoom level, the
`BusMap` inverse projection undoes the forward projection (taking the
world width `256 * 2^z` as the map width): `pixelToLatLng (latLngToPixel p) = p`,
exactly in real arithmetic (hence within any floating-point epsilon). -/
theorem C3_unproject_project (z : ℕ) (lat lng h : ℝ) (hlat : |lat| ≤ 85) :
    pixelToLatLng (latLngToPixel lat lng (256 * 2 ^ z) h).x
      (latLngToPixel lat lng (256 * 2 ^ z) h).y (256 * 2 ^ z) h = ⟨lat, lng⟩ :=
  pixelToLatLng_latLngToPixel lat lng (256 * 2 ^ z) h (by positivity) hlat

/-- Witness for C3 at zoom 10, the London default centre, map height 512. -/
theorem C3_unproject_project_witness :
    |(51.5074 : ℝ)| ≤ 85 ∧
    pixelToLatLng (latLngToPixel 51.5074 (-0.1278) (256 * 2 ^ 10) 512).x
      (latLngToPixel 51.5074 (-0.1278) (256 * 2 ^ 10) 512).y (256 * 2 ^ 10) 512
      = ⟨51.5074, -0.1278⟩ :=
  ⟨by rw [abs_le]; constructor <;> norm_num,
   C3_unproject_project 10 51.5074 (-0.1278) 512 (by rw [abs_le]; constructor <;> norm_num)⟩

/-! ## C1: the drag-commit step of `BusMap` -/

/-- The state after the full gesture
`mouseDown (x0,y0) → mouseMove (x1,y1) → mouseUp`. -/
theorem busMap_gesture_eq (s : BusMapState) (x0 y0 x1 y1 w h : ℝ) :
    busMapHandleMouseUp (busMapHandleMouseMove (busMapHandleMouseDown s x0 y0) x1 y1) w h
      = { s with isDragging := false, dragStart := ⟨x0, y0⟩,
                 center := pixelToLatLng
                   ((latLngToPixel s.center.lat s.center.lng w h).x - (x1 - x0))
                   ((latLngToPixel s.center.lat s.center.lng w h).y - (y1 - y0)) w h,
                 dragOffset := ⟨0, 0⟩ } := by
  simp [busMapHandleMouseDown, busMapHandleMouseMove, busMapHandleMouseUp]

/-- Where the committed centre sat on screen before the gesture began
(original centre, zero drag offset): at `(w/2 - (x1-x0), h/2 - (y1-y0))`,
i.e. at screen offset `(-(x1-x0), -(y1-y0))` from the viewport centre. -/
theorem busMap_commit_screenPos (s : BusMapState) (x0 y0 x1 y1 w h : ℝ) (hw : w ≠ 0) :
    busMapScreenPos
        (busMapHandleMouseUp (busMapHandleMouseMove (busMapHandleMouseDown s x0 y0) x1 y1) w h).center
        { s with dragOffset := ⟨0, 0⟩ } w h
      = ⟨w / 2 - (x1 - x0), h / 2 - (y1 - y0)⟩ := by
  rw [busMap_gesture_eq]
  unfold busMapScreenPos
  rw [latLngToPixel_pixelToLatLng _ _ w h hw]
  simp only [ScreenPoint.mk.injEq]
  constructor <;> ring

/-- C1 counterexample: for the drag from `(100,100)` to `(150,130)` the
claim places the new centre at the point previously at screen position
`(50,-30)` relative to the original centre, i.e. at pre-drag screen
`x = w/2 + 50`; the code puts it at `x = w/2 - 50` (here `206 ≠ 306`). -/
theorem C1_counterexample :
    (busMapScreenPos
        (busMapHandleMouseUp (busMapHandleMouseMove (busMapHandleMouseDown
            (⟨13, ⟨0, 0⟩, false, ⟨0, 0⟩, ⟨0, 0⟩⟩ : BusMapState) 100 100) 150 130) 512 512).center
        ⟨13, ⟨0, 0⟩, false, ⟨0, 0⟩, ⟨0, 0⟩⟩ 512 512).x
      ≠ 512 / 2 + 50 := by
  have hx := busMap_commit_screenPos ⟨13, ⟨0, 0⟩, false, ⟨0, 0⟩, ⟨0, 0⟩⟩ 100 100 150 130 512 512
    (by norm_num)
  rw [hx]
  norm_num

/-- C1 (amended): committing the drag gesture
`pointerDown (x0,y0) → pointerMove (x1,y1) → pointerUp` resets `dragOffset`
to `{0,0}` and moves the centre to the geographic point previously at
screen offset `(-(x1-x0), -(y1-y0))` from the old centre — for the drag
`(100,100) → (150,130)` that is `(-50,-30)`, not `(50,-30)` (exact in the
`BusMap` variant; the `LiveBusMap` variant linearises the latitude delta). -/
theorem C1_amended_drag_commit (s : BusMapState) (x0 y0 x1 y1 w h : ℝ) (hw : w ≠ 0) :
    ((busMapHandleMouseUp (busMapHandleMouseMove (busMapHandleMouseDown s x0 y0) x1 y1) w h).dragOffset
        = ⟨0, 0⟩) ∧
    busMapScreenPos
        (busMapHandleMouseUp (busMapHandleMouseMove (busMapHandleMouseDown s x0 y0) x1 y1) w h).center
        { s with dragOffset := ⟨0, 0⟩ } w h
      = ⟨w / 2 - (x1 - x0), h / 2 - (y1 - y0)⟩ := by
  constructor
  · rw [busMap_gesture_eq]
  · exact busMap_commit_screenPos s x0 y0 x1 y1 w h hw

/-- Witness for C1 (amended) at the spec's gesture on a 512×512 viewport. -/
theorem C1_amended_drag_commit_witness :
    (512 : ℝ) ≠ 0 ∧
    (((busMapHandleMouseUp (busMapHandleMouseMove (busMapHandleMouseDown
          (⟨13, ⟨51.5074, -0.1278⟩, false, ⟨0, 0⟩, ⟨0, 0⟩⟩ : BusMapState) 100 100) 150 130)
        512 512).dragOffset = ⟨0, 0⟩) ∧
      busMapScreenPos
        (busMapHandleMouseUp (busMapHandleMouseMove (busMapHandleMouseDown
            (⟨13, ⟨51.5074, -0.1278⟩, false, ⟨0, 0⟩, ⟨0, 0⟩⟩ : BusMapState) 100 100) 150 130)
          512 512).center
        { (⟨13, ⟨51.5074, -0.1278⟩, false, ⟨0, 0⟩, ⟨0, 0⟩⟩ : BusMapState) with
            dragOffset := (⟨0, 0⟩ : ScreenPoint) } 512 512
        = ⟨512 / 2 - (150 - 100), 512 / 2 - (130 - 100)⟩) :=
  ⟨by norm_num,
   C1_amended_drag_commit ⟨13, ⟨51.5074, -0.1278⟩, false, ⟨0, 0⟩, ⟨0, 0⟩⟩ 100 100 150 130 512 512
     (by norm_num)⟩

/-! ## C2: viewport-state invariants -/

/-- The zoom field is untouched by a drag commit. -/
theorem liveHandleMouseUp_zoom (s : LiveMapState) : (liveHandleMouseUp s).zoom = s.zoom := by
  unfold liveHandleMouseUp
  split <;> rfl

/-- C2 counterexample: the auto-centre effect copies entity coordinates
without clamping — a stop list whose sole element has latitude 86 leaves
the centre latitude at 86 ∉ [-85, 85]; and a drag commit can leave the
centre longitude at −180.1278 ∉ (−180, 180] (zoom 3, a 1024px westward
drag from the London default). -/
theorem C2_counterexample :
    ((applyOp (.autoCenterOp none none [⟨"X", "X", 86, 0, none, none⟩]) liveInitialState).center.lat
        = 86 ∧
      ¬ (applyOp (.autoCenterOp none none [⟨"X", "X", 86, 0, none, none⟩])
          liveInitialState).center.lat ≤ 85) ∧
    ((liveHandleMouseUp ⟨3, ⟨51.5074, -0.1278⟩, true, ⟨0, 0⟩, ⟨1024, 0⟩⟩).center.lng
        = -180.1278 ∧
      ¬ (-180 : ℝ) <
        (liveHandleMouseUp ⟨3, ⟨51.5074, -0.1278⟩, true, ⟨0, 0⟩, ⟨1024, 0⟩⟩).center.lng) := by
  constructor
  · constructor
    · simp [applyOp, liveAutoCenter, spreadMax, spreadMin]
    · simp [applyOp, liveAutoCenter, spreadMax, spreadMin]
      norm_num
  · have hlng : (liveHandleMouseUp ⟨3, ⟨51.5074, -0.1278⟩, true, ⟨0, 0⟩, ⟨1024, 0⟩⟩).center.lng
        = -180.1278 := by
      simp only [liveHandleMouseUp, if_pos]
      norm_num
      rw [jsMod, jsTrunc, if_neg (by norm_num)]
      norm_num
      rw [show ⌈(-(71 / 200000) : ℝ)⌉ = (0 : ℤ) by
        rw [Int.ceil_eq_zero_iff]; norm_num [Set.mem_Ioc]]
      norm_num
    exact ⟨hlng, by rw [hlng]; norm_num⟩

/-- C2 (amended): after every viewport-state update the zoom stays within
[3, 18] (given it starts there: it is initialised to 13 and only these
operations write it), and the drag commit clamps the centre latitude into
[-85, 85].  The recentre/auto-centre operations copy raw selection, user
or bounding-box coordinates without clamping, and the drag commit's
longitude remainder is not a (-180, 180] normalisation, so the claimed
centre invariant holds only for the drag-commit latitude. -/
theorem C2_amended_invariants (op : MapOp) (s : LiveMapState) (h3 : 3 ≤ s.zoom)
    (h18 : s.zoom ≤ 18) :
    (3 ≤ (applyOp op s).zoom ∧ (applyOp op s).zoom ≤ 18) ∧
    (s.isDragging = true →
      -85 ≤ (liveHandleMouseUp s).center.lat ∧ (liveHandleMouseUp s).center.lat ≤ 85) := by
  constructor
  · cases op with
    | zoomInOp => simp only [applyOp]; omega
    | zoomOutOp => simp only [applyOp]; omega
    | resetViewOp => simp [applyOp]
    | mouseUpOp =>
      simp only [applyOp]
      rw [liveHandleMouseUp_zoom]
      exact ⟨h3, h18⟩
    | centerOnUserOp u => simp [applyOp]
    | centerOnStopOp st => simp [applyOp]
    | autoCenterOp sel u stops =>
      cases sel <;> cases u <;> cases stops <;> (simp [applyOp, liveAutoCenter]; try omega)
  · intro hdrag
    unfold liveHandleMouseUp
    rw [if_pos hdrag]
    dsimp only
    exact ⟨le_max_left _ _, max_le (by norm_num) (min_le_left _ _)⟩

/-- Witness for C2 (amended): a zoom-in step on a mid-drag state at the
London default. -/
theorem C2_amended_invariants_witness :
    ((3 : ℤ) ≤ (⟨13, ⟨51.5074, -0.1278⟩, true, ⟨0, 0⟩, ⟨50, 30⟩⟩ : LiveMapState).zoom ∧
      (⟨13, ⟨51.5074, -0.1278⟩, true, ⟨0, 0⟩, ⟨50, 30⟩⟩ : LiveMapState).zoom ≤ 18) ∧
    ((3 ≤ (applyOp .zoomInOp ⟨13, ⟨51.5074, -0.1278⟩, true, ⟨0, 0⟩, ⟨50, 30⟩⟩).zoom ∧
        (applyOp .zoomInOp ⟨13, ⟨51.5074, -0.1278⟩, true, ⟨0, 0⟩, ⟨50, 30⟩⟩).zoom ≤ 18) ∧
      ((⟨13, ⟨51.5074, -0.1278⟩, true, ⟨0, 0⟩, ⟨50, 30⟩⟩ : LiveMapState).isDragging = true →
        -85 ≤ (liveHandleMouseUp ⟨13, ⟨51.5074, -0.1278⟩, true, ⟨0, 0⟩, ⟨50, 30⟩⟩).center.lat ∧
          (liveHandleMouseUp ⟨13, ⟨51.5074, -0.1278⟩, true, ⟨0, 0⟩, ⟨50, 30⟩⟩).center.lat ≤ 85)) :=
  ⟨⟨by decide, by decide⟩,
   C2_amended_invariants .zoomInOp ⟨13, ⟨51.5074, -0.1278⟩, true, ⟨0, 0⟩, ⟨50, 30⟩⟩
     (by decide) (by decide)⟩

/-! ## C4: tile enumeration -/

/-- The candidate grid size: `2*floor(tilesX/2)+1` by `2*floor(tilesY/2)+1`. -/
theorem tileCandidates_length (ctX ctY : ℤ) (w h : ℚ) :
    (tileCandidates ctX ctY w h).length
      = (2 * ((⌈w / 256⌉ + 2) / 2) + 1).toNat * (2 * ((⌈h / 256⌉ + 2) / 2) + 1).toNat := by
  simp [tileCandidates, List.length_flatMap, Function.comp_def]

/-- The candidate grid is the centred box of half-width `floor(tilesX/2)`
(and `floor(tilesY/2)`) around the centre tile. -/
theorem tileCandidates_mem (ctX ctY : ℤ) (w h : ℚ) (p : ℤ × ℤ) :
    p ∈ tileCandidates ctX ctY w h ↔
      |p.1 - ctX| ≤ (⌈w / 256⌉ + 2) / 2 ∧ |p.2 - ctY| ≤ (⌈h / 256⌉ + 2) / 2 := by
  simp only [tileCandidates]
  constructor
  · intro hp
    obtain ⟨i, hi, hmem⟩ := List.mem_flatMap.mp hp
    obtain ⟨j, hj, hpj⟩ := List.mem_map.mp hmem
    rw [List.mem_range] at hi hj
    rw [← hpj, abs_le, abs_le]
    dsimp only
    omega
  · rintro ⟨h1, h2⟩
    rw [abs_le] at h1 h2
    apply List.mem_flatMap.mpr
    refine ⟨(p.1 - ctX + (⌈w / 256⌉ + 2) / 2).toNat, ?_, ?_⟩
    · rw [List.mem_range]; omega
    · apply List.mem_map.mpr
      refine ⟨(p.2 - ctY + (⌈h / 256⌉ + 2) / 2).toNat, ?_, ?_⟩
      · rw [List.mem_range]; omega
      · obtain ⟨a, b⟩ := p
        dsimp only at h1 h2 ⊢
        rw [Prod.mk.injEq]
        constructor <;> omega

/-- C4 counterexample: for a 512×512 viewport (centre tile (511, 340) at
zoom 10) the loops run `dx, dy ∈ [-2, 2]`, so there are 5×5 = 25 candidate
tiles before edge-of-world clipping, not the claimed
`(ceil(512/256)+2)^2 = 16`. -/
theorem C4_counterexample :
    (tileCandidates 511 340 512 512).length = 25 ∧
    (tileCandidates 511 340 512 512).length ≠ 16 := by
  have h25 : (tileCandidates 511 340 512 512).length = 25 := by
    rw [tileCandidates_length]
    rw [show ⌈(512 : ℚ) / 256⌉ = 2 by norm_num]
    decide
  exact ⟨h25, by rw [h25]; decide⟩

/-- C4 (amended): `renderTiles` enumerates the rectangular grid of
`2*floor((ceil(w/256)+2)/2)+1` by `2*floor((ceil(h/256)+2)/2)+1` candidate
tiles centred on the centre tile (before skipping tiles outside
`[0, 2^zoom)`); since the loop bounds `±floor(tilesX/2)` always give an
odd count, a 512×512 viewport yields 5×5 = 25 candidates, not 16. -/
theorem C4_amended_tile_grid (ctX ctY : ℤ) (w h : ℚ) :
    ((tileCandidates ctX ctY w h).length
        = (2 * ((⌈w / 256⌉ + 2) / 2) + 1).toNat * (2 * ((⌈h / 256⌉ + 2) / 2) + 1).toNat) ∧
    (∀ p : ℤ × ℤ, p ∈ tileCandidates ctX ctY w h ↔
        |p.1 - ctX| ≤ (⌈w / 256⌉ + 2) / 2 ∧ |p.2 - ctY| ≤ (⌈h / 256⌉ + 2) / 2) ∧
    (tileCandidates ctX ctY 512 512).length = 25 := by
  refine ⟨tileCandidates_length ctX ctY w h, fun p => tileCandidates_mem ctX ctY w h p, ?_⟩
  rw [tileCandidates_length]
  rw [show ⌈(512 : ℚ) / 256⌉ = 2 by norm_num]
  decide

/-! ## C5: fallback centering priority -/

/-- C5: with no selected stop, the auto-centre effect centres on the user
location (zoom 15) whenever one is known — even when the stop list is
non-empty; with neither user location nor stops it leaves the centre
untouched (the fixed London default, which nothing else has changed);
with no user location and a non-empty stop list it centres on the
axis-aligned bounding-box midpoint of the stop positions (zoom 14). -/
theorem C5_recenter_priority (u : UserLocation) (st : BusStop) (rest : List BusStop)
    (s : LiveMapState) :
    ((liveAutoCenter none (some u) (st :: rest) s).center = ⟨u.lat, u.lng⟩ ∧
      (liveAutoCenter none (some u) (st :: rest) s).zoom = 15) ∧
    ((liveAutoCenter none none (st :: rest) s).center
        = ⟨(spreadMax st.lat (rest.map fun b => b.lat)
              + spreadMin st.lat (rest.map fun b => b.lat)) / 2,
           (spreadMax st.lon (rest.map fun b => b.lon)
              + spreadMin st.lon (rest.map fun b => b.lon)) / 2⟩ ∧
      (liveAutoCenter none none (st :: rest) s).zoom = 14) ∧
    (liveAutoCenter none none [] s).center = s.center := by
  exact ⟨⟨rfl, rfl⟩, ⟨rfl, rfl⟩, rfl⟩

/-! ## C6: marker culling at the 50px margin -/

/-- C6: a marker is culled exactly when its computed screen position lies
outside the viewport rectangle expanded by 50px on every side; a position
51px beyond the visible boundary is culled and one 49px beyond it is
rendered (shown on both the right and left edges). -/
theorem C6_cull_margin (p : ScreenPoint) (w h : ℝ) (hw : 0 ≤ w) (hh : 0 ≤ h) :
    (markerCulled p w h ↔
      ¬ (-50 ≤ p.x ∧ p.x ≤ w + 50 ∧ -50 ≤ p.y ∧ p.y ≤ h + 50)) ∧
    markerCulled ⟨w + 51, h / 2⟩ w h ∧
    ¬ markerCulled ⟨w + 49, h / 2⟩ w h ∧
    markerCulled ⟨-51, h / 2⟩ w h ∧
    ¬ markerCulled ⟨-49, h / 2⟩ w h := by
  unfold markerCulled
  refine ⟨?_, ?_, ?_, ?_, ?_⟩
  · simp only [not_and_or, not_le]
  · dsimp only
    right; left; linarith
  · dsimp only
    rintro (h1 | h1 | h1 | h1) <;> linarith
  · dsimp only
    left; linarith
  · dsimp only
    rintro (h1 | h1 | h1 | h1) <;> linarith

/-- Witness for C6 on a 512×512 viewport at the screen origin. -/
theorem C6_cull_margin_witness :
    (0 : ℝ) ≤ 512 ∧
    ((markerCulled ⟨0, 0⟩ 512 512 ↔
        ¬ (-50 ≤ (ScreenPoint.mk 0 0).x ∧ (ScreenPoint.mk 0 0).x ≤ 512 + 50 ∧
           -50 ≤ (ScreenPoint.mk 0 0).y ∧ (ScreenPoint.mk 0 0).y ≤ 512 + 50)) ∧
      markerCulled ⟨512 + 51, 512 / 2⟩ 512 512 ∧
      ¬ markerCulled ⟨512 + 49, 512 / 2⟩ 512 512 ∧
      markerCulled ⟨-51, 512 / 2⟩ 512 512 ∧
      ¬ markerCulled ⟨-49, 512 / 2⟩ 512 512) :=
  ⟨by norm_num, C6_cull_margin ⟨0, 0⟩ 512 512 (by norm_num) (by norm_num)⟩

/-! ## C7: live-data poll timers -/

/-- One step keeps the timer list at length ≤ 1. -/
theorem pollStep_timers (s : PollState) (e : PollEvent) (hs : s.timers.length ≤ 1) :
    (pollStep s e).1.timers.length ≤ 1 := by
  cases e with
  | select sel => cases sel <;> simp [pollStep]
  | timerFire b =>
    simp only [pollStep]
    split <;> simpa
  | fetchResolve b =>
    simp only [pollStep]
    split <;> simpa

/-- The timer list never holds more than one entry. -/
theorem pollRun_timers_le (events : List PollEvent) (s : PollState) (hs : s.timers.length ≤ 1) :
    (pollRun s events).1.timers.length ≤ 1 := by
  induction events generalizing s with
  | nil => exact hs
  | cons e es ih => exact ih (pollStep s e).1 (pollStep_timers s e hs)

/-- Every timer is started with the fixed 30000ms interval. -/
theorem pollStep_startTimer_interval (s : PollState) (e : PollEvent) (c : String) (j : ℕ) :
    PollAction.startTimer c j ∈ (pollStep s e).2 → j = 30000 := by
  cases e with
  | select sel =>
    cases sel with
    | some b =>
      intro hmem
      simp [pollStep] at hmem
      exact hmem.2
    | none =>
      intro hmem
      simp [pollStep] at hmem
  | timerFire b =>
    intro hmem
    simp only [pollStep] at hmem
    split at hmem <;> simp at hmem
  | fetchResolve b =>
    intro hmem
    simp only [pollStep] at hmem
    split at hmem <;> simp at hmem

/-- C7 counterexample: selecting stop A, then stop B, then receiving the
response of A's still-in-flight fetch.  A's timer is cleared before B's
starts, but the late result for A is still processed after B's poll loop
has started (`fetchBusLocations` carries no abort), refuting "no poll
results for A are processed after B's poll loop starts". -/
theorem C7_counterexample :
    ((pollRun ⟨[], []⟩ [.select (some "A"), .select (some "B"), .fetchResolve "A"]).2
      = [.startFetch "A", .startTimer "A" 30000, .clearTimer "A", .startFetch "B",
         .startTimer "B" 30000, .processResult "A"]) ∧
    ((pollRun ⟨[], []⟩ [.select (some "A"), .select (some "B"), .fetchResolve "A"]).2.drop 4
      = [.startTimer "B" 30000, .processResult "A"]) := by
  exact ⟨rfl, rfl⟩

/-- C7 (amended): at most one poll timer is active per component instance,
on a selection change from A to B the timer for A is cleared before B's
timer is started, and every timer uses the fixed 30000ms interval; but
in-flight fetch responses are not aborted, so a poll result for A already
in flight can still be processed after B's poll loop starts. -/
theorem C7_amended_poll (events : List PollEvent) (s : PollState) (hs : s.timers.length ≤ 1)
    (a b : String) (i : ℕ) (p : List String) :
    ((pollRun s events).1.timers.length ≤ 1) ∧
    (pollStep ⟨[(a, i)], p⟩ (.select (some b))
        = (⟨[(b, 30000)], b :: p⟩,
           [.clearTimer a, .startFetch b, .startTimer b 30000])) ∧
    (∀ (e : PollEvent) (c : String) (j : ℕ),
        PollAction.startTimer c j ∈ (pollStep s e).2 → j = 30000) :=
  ⟨pollRun_timers_le events s hs, rfl, fun e c j => pollStep_startTimer_interval s e c j⟩

/-- Witness for C7 (amended) with a single selection event from the idle
state. -/
theorem C7_amended_poll_witness :
    (PollState.timers ⟨[], []⟩).length ≤ 1 ∧
    (((pollRun ⟨[], []⟩ [.select (some "A")]).1.timers.length ≤ 1) ∧
      (pollStep ⟨[("A", 30000)], []⟩ (.select (some "B"))
          = (⟨[("B", 30000)], ["B"]⟩,
             [.clearTimer "A", .startFetch "B", .startTimer "B" 30000])) ∧
      (∀ (e : PollEvent) (c : String) (j : ℕ),
          PollAction.startTimer c j ∈ (pollStep ⟨[], []⟩ e).2 → j = 30000)) :=
  ⟨by decide, C7_amended_poll [.select (some "A")] ⟨[], []⟩ (by decide) "A" "B" 30000 []⟩

/-! ## C8: search-route timeout and failure handling -/

/-- The success path of the search route: once the text search and the
bulk details fetch have both succeeded, the route answers HTTP 200 with
`stale: false`, whatever the per-group expansion fetches do — a failing
group is skipped silently inside the expansion. -/
theorem searchGET_success (query : String) (u : SearchUpstream) (found : List StopPointBase)
    (stopPoints : List StopPoint) (hq : jsTrim query ≠ "") (hok : u.search = .ok found)
    (hne : ¬ found.isEmpty) (hd : u.details (searchIdsKey found) = .ok stopPoints) :
    searchGET (some query) u
      = .results ((stopPoints.flatMap fun sp =>
          if isGroupId sp.id then
            match fetchJson (u.group sp.id) with
            | .ok g =>
              ((g.children.filter fun c => c.modes.contains "bus").map
                fun c => { c with distance := sp.distance })
            | .error _ => []
          else [sp.toStopPointBase]).map fun sp => toResult sp none)
          (some false) none := by
  simp [searchGET, hq, hok, hd, fetchJson, hne]

/-- C8 counterexample: one upstream fetch fails — the group-expansion
fetch for "490G0001" is aborted/thrown — while the text search and the
details fetch succeed.  The route skips the failing group silently and
answers HTTP 200 with `stale: false` and the remaining (non-empty)
matches: not the claimed empty-matches, stale-flag response.  So not
every upstream failure resolves to the empty/stale state. -/
theorem C8_counterexample :
    searchGET (some "oxford")
        ⟨.ok [⟨"490G0001", none, "Oxford Circus", some 51, some 0, none, ["bus"], none, [], []⟩,
              ⟨"49000077E", none, "Oxford Street", some 51, some 0, none, ["bus"], none, [], []⟩],
         fun _ => .ok
           [⟨⟨"490G0001", none, "Oxford Circus", some 51, some 0, none, ["bus"], none, [], []⟩, []⟩,
            ⟨⟨"49000077E", none, "Oxford Street", some 51, some 0, none, ["bus"], none, [], []⟩, []⟩],
         fun _ => .thrown⟩
      = .results [⟨"49000077E", "Oxford Street", some 51, some 0, none, none, none, [], none⟩]
          (some false) none ∧
    (SearchResponse.results
        [⟨"49000077E", "Oxford Street", some 51, some 0, none, none, none, [], none⟩]
        (some false) none
      ≠ .results [] (some true) (some "Failed to search bus stops")) := by
  constructor
  · rfl
  · intro hcontra
    injection hcontra with h1 h2
    cases h1

/-- C8 (amended): the search route arms a 5000ms (~5s) abort timeout
around its upstream fetches.  A failure — abort/timeout, non-OK HTTP
status, or thrown error — of the text-search fetch or of the bulk details
fetch resolves to an HTTP 200 response with an empty matches list and
`stale: true`, rather than hanging or propagating the exception.  A
failure of a per-group expansion fetch, however, is skipped silently:
the group contributes no children and the route still answers HTTP 200
with `stale: false` and the remaining matches. -/
theorem C8_search_timeout_failure (query : String) (u : SearchUpstream)
    (hq : jsTrim query ≠ "") :
    searchTimeoutMs = 5000 ∧
    (u.search.failed = true →
      searchGET (some query) u
          = .results [] (some true) (some "Failed to search bus stops") ∧
      (searchGET (some query) u).status = 200) ∧
    (∀ found, u.search = .ok found → ¬ found.isEmpty →
      (u.details (searchIdsKey found)).failed = true →
      searchGET (some query) u
          = .results [] (some true) (some "Failed to search bus stops") ∧
      (searchGET (some query) u).status = 200) ∧
    (∀ found stopPoints, u.search = .ok found → ¬ found.isEmpty →
      u.details (searchIdsKey found) = .ok stopPoints →
      ∃ ms, searchGET (some query) u = .results ms (some false) none ∧
        (searchGET (some query) u).status = 200) := by
  refine ⟨rfl, ?_, ?_, ?_⟩
  · intro hfail
    cases hu : u.search with
    | ok v =>
      rw [hu] at hfail
      simp [Fetched.failed] at hfail
    | notOk st =>
      have hres : searchGET (some query) u
          = .results [] (some true) (some "Failed to search bus stops") := by
        simp [searchGET, hq, hu, fetchJson]
      exact ⟨hres, by rw [hres]; rfl⟩
    | thrown =>
      have hres : searchGET (some query) u
          = .results [] (some true) (some "Failed to search bus stops") := by
        simp [searchGET, hq, hu, fetchJson]
      exact ⟨hres, by rw [hres]; rfl⟩
  · intro found hok hne hfail
    cases hd : u.details (searchIdsKey found) with
    | ok v =>
      rw [hd] at hfail
      simp [Fetched.failed] at hfail
    | notOk st =>
      have hres : searchGET (some query) u
          = .results [] (some true) (some "Failed to search bus stops") := by
        simp [searchGET, hq, hok, hd, fetchJson, hne]
      exact ⟨hres, by rw [hres]; rfl⟩
    | thrown =>
      have hres : searchGET (some query) u
          = .results [] (some true) (some "Failed to search bus stops") := by
        simp [searchGET, hq, hok, hd, fetchJson, hne]
      exact ⟨hres, by rw [hres]; rfl⟩
  · intro found stopPoints hok hne hd
    have hres := searchGET_success query u found stopPoints hq hok hne hd
    exact ⟨_, hres, by rw [hres]; rfl⟩

/-- Witness for C8 (amended): the query "oxford" against an upstream
whose fetches all throw (e.g. aborted by the timeout). -/
theorem C8_search_timeout_failure_witness :
    jsTrim "oxford" ≠ "" ∧
    (searchTimeoutMs = 5000 ∧
      ((Fetched.thrown : Fetched (List StopPointBase)).failed = true →
        searchGET (some "oxford") ⟨.thrown, fun _ => .thrown, fun _ => .thrown⟩
            = .results [] (some true) (some "Failed to search bus stops") ∧
        (searchGET (some "oxford") ⟨.thrown, fun _ => .thrown, fun _ => .thrown⟩).status = 200) ∧
      (∀ found, (Fetched.thrown : Fetched (List StopPointBase)) = .ok found → ¬ found.isEmpty →
        ((fun _ => (Fetched.thrown : Fetched (List StopPoint))) (searchIdsKey found)).failed
            = true →
        searchGET (some "oxford") ⟨.thrown, fun _ => .thrown, fun _ => .thrown⟩
            = .results [] (some true) (some "Failed to search bus stops") ∧
        (searchGET (some "oxford") ⟨.thrown, fun _ => .thrown, fun _ => .thrown⟩).status = 200) ∧
      (∀ found stopPoints,
        (Fetched.thrown : Fetched (List StopPointBase)) = .ok found → ¬ found.isEmpty →
        (fun _ => (Fetched.thrown : Fetched (List StopPoint))) (searchIdsKey found)
            = .ok stopPoints →
        ∃ ms, searchGET (some "oxford") ⟨.thrown, fun _ => .thrown, fun _ => .thrown⟩
            = .results ms (some false) none ∧
          (searchGET (some "oxford") ⟨.thrown, fun _ => .thrown, fun _ => .thrown⟩).status
            = 200)) :=
  ⟨by decide, C8_search_timeout_failure "oxford" ⟨.thrown, fun _ => .thrown, fun _ => .thrown⟩
    (by decide)⟩

/-! ## C9: malformed-entity filtering -/

/-- C9 counterexample: a vehicle whose `/Vehicle/{id}/Arrivals` record
exists but has no `lat` field passes `.filter(Boolean)` untouched: the
route returns it with a missing latitude, so not every entity delivered
to the map has numeric `lat`/`lon`. -/
theorem C9_counterexample :
    busLocationGET (some "490000077E") (.ok [⟨some "V1"⟩])
        (fun v => if v = "V1"
          then .ok [⟨some "88", some "V1", none, some 0, some "Clapham"⟩]
          else .thrown)
      = .okBuses [⟨"V1", some "88", some "V1", none, some 0, some "Clapham"⟩] ∧
    (⟨"V1", some "88", some "V1", none, some 0, some "Clapham"⟩ : TrackedBus).lat = none := by
  exact ⟨by decide, rfl⟩

/-- C9 (amended): the bus-location route filters out exactly the vehicles
whose location fetch failed or returned no record (`null` entries removed
by `.filter(Boolean)`); every returned bus comes from a successful fetch
with a first record, whose `lat`/`lon` fields are copied as-is — present
or not — with no coordinate check before the marker projector. -/
theorem C9_amended_filter_boolean (sid : String) (hsid : sid ≠ "")
    (arrivalsData : List TflArrival)
    (vehicleFetch : String → Fetched (List TflVehicleArrival)) (bs : List TrackedBus)
    (hok : busLocationGET (some sid) (.ok arrivalsData) vehicleFetch = .okBuses bs) :
    ∀ b ∈ bs, ∃ info rest, vehicleFetch b.id = .ok (info :: rest)
      ∧ b.lat = info.lat ∧ b.lon = info.lon := by
  simp only [busLocationGET, if_neg hsid] at hok
  by_cases hemp : (extractVehicleIds arrivalsData).isEmpty
  · rw [if_pos hemp] at hok
    injection hok with hbs
    subst hbs
    intro b hb
    cases hb
  · rw [if_neg hemp] at hok
    injection hok with hbs
    subst hbs
    intro b hb
    obtain ⟨vid, hvid, hf⟩ := List.mem_filterMap.mp hb
    cases hfv : vehicleFetch vid with
    | ok data =>
      cases data with
      | nil => rw [hfv] at hf; cases hf
      | cons info rest =>
        rw [hfv] at hf
        injection hf with hb2
        subst hb2
        exact ⟨info, rest, hfv, rfl, rfl⟩
    | notOk st => rw [hfv] at hf; cases hf
    | thrown => rw [hfv] at hf; cases hf

/-- Witness for C9 (amended): one vehicle with a complete record. -/
theorem C9_amended_filter_boolean_witness :
    ("490000077E" : String) ≠ "" ∧
    busLocationGET (some "490000077E") (.ok [⟨some "V2"⟩])
        (fun v => if v = "V2"
          then .ok [⟨some "88", some "V2", some 51, some (-1),
                     some "Clapham"⟩]
          else .thrown)
      = .okBuses [⟨"V2", some "88", some "V2", some 51, some (-1),
                   some "Clapham"⟩] ∧
    (∀ b ∈ [(⟨"V2", some "88", some "V2", some 51, some (-1),
               some "Clapham"⟩ : TrackedBus)],
      ∃ info rest,
        (fun v => if v = "V2"
          then Fetched.ok [(⟨some "88", some "V2", some 51, some (-1),
                            some "Clapham"⟩ : TflVehicleArrival)]
          else .thrown) b.id = .ok (info :: rest)
        ∧ b.lat = info.lat ∧ b.lon = info.lon) :=
  ⟨by decide, by decide,
   C9_amended_filter_boolean "490000077E" (by decide) [⟨some "V2"⟩]
     (fun v => if v = "V2"
       then .ok [⟨some "88", some "V2", some 51, some (-1),
                  some "Clapham"⟩]
       else .thrown)
     [⟨"V2", some "88", some "V2", some 51, some (-1), some "Clapham"⟩]
     (by decide)⟩

/-! ## C10: at most five tracked buses -/

/-- C10: for every request with a valid stop id whose arrivals fetch
succeeds, the returned bus list has at most 5 elements, and each returned
bus's id is one of the first 5 unique vehicle ids extracted from the
arrivals (deduplicated preserving first occurrence). -/
theorem C10_at_most_five (sid : String) (hsid : sid ≠ "") (arrivalsData : List TflArrival)
    (vehicleFetch : String → Fetched (List TflVehicleArrival)) (bs : List TrackedBus)
    (hok : busLocationGET (some sid) (.ok arrivalsData) vehicleFetch = .okBuses bs) :
    bs.length ≤ 5 ∧
    ∀ b ∈ bs, b.id ∈ (jsSetDedup (extractVehicleIds arrivalsData)).take 5 := by
  simp only [busLocationGET, if_neg hsid] at hok
  by_cases hemp : (extractVehicleIds arrivalsData).isEmpty
  · rw [if_pos hemp] at hok
    injection hok with hbs
    subst hbs
    exact ⟨by simp, fun b hb => absurd hb (List.not_mem_nil b)⟩
  · rw [if_neg hemp] at hok
    injection hok with hbs
    subst hbs
    constructor
    · exact le_trans (List.length_filterMap_le _ _) (List.length_take_le _ _)
    · intro b hb
      obtain ⟨vid, hvid, hf⟩ := List.mem_filterMap.mp hb
      cases hfv : vehicleFetch vid with
      | ok data =>
        cases data with
        | nil => rw [hfv] at hf; cases hf
        | cons info rest =>
          rw [hfv] at hf
          injection hf with hb2
          subst hb2
          exact hvid
      | notOk st => rw [hfv] at hf; cases hf
      | thrown => rw [hfv] at hf; cases hf

/-- Witness for C10: three arrivals sharing two distinct vehicle ids. -/
theorem C10_at_most_five_witness :
    ("490008660N" : String) ≠ "" ∧
    busLocationGET (some "490008660N") (.ok [⟨some "LTZ1000"⟩, ⟨some "LTZ1000"⟩, ⟨some "LX58"⟩])
        (fun v => if v = "LTZ1000"
          then .ok [⟨some "88", some "LTZ1000", some 51, some 0, some "Clapham"⟩]
          else .thrown)
      = .okBuses [⟨"LTZ1000", some "88", some "LTZ1000", some 51, some 0,
                   some "Clapham"⟩] ∧
    ([(⟨"LTZ1000", some "88", some "LTZ1000", some 51, some 0,
        some "Clapham"⟩ : TrackedBus)].length ≤ 5 ∧
      ∀ b ∈ [(⟨"LTZ1000", some "88", some "LTZ1000", some 51, some 0,
               some "Clapham"⟩ : TrackedBus)],
        b.id ∈ (jsSetDedup (extractVehicleIds
          [⟨some "LTZ1000"⟩, ⟨some "LTZ1000"⟩, ⟨some "LX58"⟩])).take 5) :=
  ⟨by decide, by decide,
   C10_at_most_five "490008660N" (by decide) [⟨some "LTZ1000"⟩, ⟨some "LTZ1000"⟩, ⟨some "LX58"⟩]
     (fun v => if v = "LTZ1000"
       then .ok [⟨some "88", some "LTZ1000", some 51, some 0, some "Clapham"⟩]
       else .thrown)
     [⟨"LTZ1000", some "88", some "LTZ1000", some 51, some 0, some "Clapham"⟩]
     (by decide)⟩

end BusTime
